import Mathlib

/-!
Shallow embedding of `.github/ci_support/upload_sonatype_snapshot_bundles.js`,
a CI script that uploads SNAPSHOT artifact bundles to Sonatype.

The script is modelled as a state-and-trace monad `M`: a computation takes a
`World` (environment variables, filesystem, temp-name counter, and oracles
for the behaviour of the external `unzip` and `mvn` subprocesses) and
returns either a value or a thrown JavaScript error, together with the
updated world and the list of observable events (temp-directory creation
and removal, file writes, subprocess spawns).

Sequencing of `M.bind` mirrors JavaScript statement sequencing: a thrown
error short-circuits all following statements, so the absence of any
try-finally in the source is reflected directly in the model.
-/

/-- A JavaScript value, as far as this script distinguishes them.
Functions in the script either return `undefined` implicitly or a string,
and bodies passed to `withTempDir` may in principle produce any value. -/
inductive JsVal where
  | undef
  | num (n : Int)
  | str (s : String)
deriving DecidableEq, Repr

/-- Observable events of a run. `tempDirCreated` and `tempDirRemoved` stand
for the `spawnSync(mktemp, [-d])` and `spawnSync(rm, [-R, path])` calls that
`withTempDir` makes; `spawned` records the other subprocess invocations
(`unzip` and `mvn`); `fileWritten` records `fs.writeFileSync`. -/
inductive Event where
  | tempDirCreated (path : String)
  | tempDirRemoved (path : String)
  | fileWritten (path : String) (content : String)
  | spawned (cmd : String) (args : List String)
deriving DecidableEq, Repr

/-- The world a run executes in.

* `env` — the process environment (`process.env`), an association list;
* `files` — existing files as (path, content) pairs;
* `dirs` — existing directories;
* `tmpCounter` — source of the fresh names produced by `mktemp -d`;
* `unzipContents` — oracle for the external `unzip` tool: for a zip path,
  the entry names it extracts into the destination directory;
* `exitCode` — oracle for the exit status of spawned subprocesses
  (default 0 for pairs not listed). -/
structure World where
  env : List (String × String)
  files : List (String × String)
  dirs : List String
  tmpCounter : Nat
  unzipContents : List (String × List String)
  exitCode : List ((String × List String) × Int)
deriving DecidableEq, Repr

/-- A computation of the script: state plus trace plus JavaScript
exceptions (`Except.error` carries the thrown error message). -/
def M (α : Type) : Type :=
  World → Except String α × World × List Event

def M.pure {α : Type} (a : α) : M α := fun w => (Except.ok a, w, [])

def M.bind {α β : Type} (x : M α) (f : α → M β) : M β := fun w =>
  match x w with
  | (Except.error e, w1, t1) => (Except.error e, w1, t1)
  | (Except.ok a, w1, t1) =>
      ((f a w1).1, (f a w1).2.1, t1 ++ (f a w1).2.2)

instance : Monad M where
  pure := M.pure
  bind := M.bind

/-- A JavaScript `throw new Error(msg)`. -/
def jsThrow {α : Type} (msg : String) : M α := fun w =>
  (Except.error msg, w, [])

/-- Model of `fs.existsSync(path)`: true when a file or directory exists at
`path`. -/
def existsSyncB (w : World) (path : String) : Bool :=
  w.files.any (fun f => f.1 == path) || w.dirs.any (fun d => d == path)

/-- The deterministic fresh directory names that model `mktemp -d`
output. -/
def tmpName (n : Nat) : String := "/tmp/tmp." ++ toString n

/-- Model of `spawnSync(mktemp, [-d])` followed by trimming its stdout:
creates a fresh directory and returns its path. -/
def mkTempDir : M String := fun w =>
  let p := tmpName w.tmpCounter
  (Except.ok p,
   { w with tmpCounter := w.tmpCounter + 1, dirs := w.dirs ++ [p] },
   [Event.tempDirCreated p])

/-- Effect of `rm -R path` on the world: the directory and every file under
it disappear. -/
def rmRec (path : String) (w : World) : World :=
  { w with
    files := w.files.filter (fun f => !(String.isPrefixOf (path ++ "/") f.1)),
    dirs := w.dirs.filter (fun d => d != path) }

/-- Model of the `spawnSync(rm, [-R, path])` call inside `withTempDir`. -/
def rmTempDir (path : String) : M Unit := fun w =>
  (Except.ok (), rmRec path w, [Event.tempDirRemoved path])

/-- Filesystem effect of the external `unzip zipPath -d dest` invocation:
every entry of the archive appears as a file under `dest`. -/
def unzipInto (zipPath dest : String) (w : World) : World :=
  { w with
    files := w.files ++
      ((w.unzipContents.lookup zipPath).getD []).map
        (fun e => (dest ++ "/" ++ e, "")) }

/-- Dispatch of `unzip`-shaped argument lists to their filesystem effect. -/
def unzipEffect (args : List String) (w : World) : World :=
  match args with
  | [zipPath, d, dest] => if d = "-d" then unzipInto zipPath dest w else w
  | _ => w

/-- Model of `spawnSync(cmd, args, {stdio: inherit})` for the external
tools (`unzip`, `mvn`): performs the tool effect, records the spawn, and
returns the status from the exit-code oracle.  Node `spawnSync` never
throws on a non-zero exit status; the returned status is what the caller
may inspect (this script never does). -/
def spawnSync (cmd : String) (args : List String) : M Int := fun w =>
  letI w1 := if cmd = "unzip" then unzipEffect args w else w
  (Except.ok ((w.exitCode.lookup (cmd, args)).getD 0), w1,
   [Event.spawned cmd args])

/-- Embedding of `function withTempDir(callback)`: make a temp directory,
run the callback, then remove the directory.  The source has no
try-finally, so in the model the removal is simply sequenced after the
callback: a thrown error in `callback` short-circuits past `rmTempDir`.
The function body has no `return` statement, so it evaluates to
`undefined`. -/
def withTempDir (callback : String → M JsVal) : M JsVal := do
  let tmpPath ← mkTempDir
  let _ ← callback tmpPath
  let _ ← rmTempDir tmpPath
  M.pure JsVal.undef

/-- Model of `fs.writeFileSync(path, content, {flag: wx+})`: exclusive
creation — fails with an EEXIST error when a file already exists at `path`,
and in that case changes nothing. -/
def writeFileSyncWx (path content : String) : M Unit := fun w =>
  match w.files.lookup path with
  | some _ =>
      (Except.error ("EEXIST: file already exists, open " ++ path), w, [])
  | none =>
      (Except.ok (),
       { w with files := w.files ++ [(path, content)] },
       [Event.fileWritten path content])

/-- Embedding of `function lines(args)`. -/
def lines (args : List String) : String := String.intercalate "\n" args

/-- Embedding of `function getEnvOrThrow(name)`: `process.env[name]`,
throwing when the variable is undefined (an empty-string value is defined,
hence accepted). -/
def getEnvOrThrow (name : String) : M String := fun w =>
  match w.env.lookup name with
  | none => (Except.error ("Environment variable not set: " ++ name), w, [])
  | some v => (Except.ok v, w, [])

/-- The line list of the settings document written by `main`
(`\x27` is the apostrophe character appearing in the source text). -/
def settingsXmlLines (username password : String) : List String :=
  ["<settings xmlns=\x27http://maven.apache.org/SETTINGS/1.0.0\x27",
   "          xmlns:xsi=\x27http://www.w3.org/2001/XMLSchema-instance\x27",
   "          xsi:schemaLocation=\x27http://maven.apache.org/SETTINGS/1.0.0 http://maven.apache.org/xsd/settings-1.0.0.xsd\x27>",
   "  <servers>",
   "    <server>",
   "      <id>snapshot-repo-id</id>",
   "      <username>" ++ username ++ "</username>",
   "      <password>" ++ password ++ "</password>",
   "    </server>",
   "  </servers>",
   "</settings>"]

/-- The settings-document generation step of `main`: one
exclusive-creation write of the serialized settings lines at
`targetPath`. -/
def generateSettings (targetPath username password : String) : M Unit :=
  writeFileSyncWx targetPath (lines (settingsXmlLines username password))

/-- Embedding of `JAR_SUFFIX_BY_MVN_ARG`, a JavaScript `Map` iterated in
insertion order: (maven argument, jar-name suffix) pairs. -/
def JAR_SUFFIX_BY_MVN_ARG : List (String × String) :=
  [("-Dfile", ""), ("-Dsources", "-sources"), ("-Djavadoc", "-javadoc")]

/-- The `jarArgs` loop of `mavenDeploySnapshotFromBazel`: for each table
entry in order, push `arg=path` when the jar file exists. -/
def jarArgsFor (existsF : String → Bool) (baseJarPath : String) : List String :=
  JAR_SUFFIX_BY_MVN_ARG.foldl
    (fun acc e =>
      let fullJarPath := baseJarPath ++ e.2 ++ ".jar"
      if existsF fullJarPath then acc ++ [e.1 ++ "=" ++ fullJarPath] else acc)
    []

/-- Read the current world (models that `fs.existsSync` observes the
filesystem without changing it or producing an event). -/
def getWorld : M World := fun w => (Except.ok w, w, [])

/-- The path of the bundle archive for an artifact. -/
def bundleZipPath (artifactId : String) : String :=
  "bazel-bin/" ++ artifactId ++ "_bundle.jar"

/-- The fixed leading tokens of the `mvn` invocation built by
`mavenDeploySnapshotFromBazel`. -/
def deployTokens (settingsPath tmpPath : String) : List String :=
  ["deploy:deploy-file",
   "--settings=" ++ settingsPath,
   "-DgeneratePom=false",
   "-DrepositoryId=snapshot-repo-id",
   "-Durl=https://oss.sonatype.org/content/repositories/snapshots/",
   "-DpomFile=" ++ tmpPath ++ "/pom.xml"]

/-- Embedding of `function mavenDeploySnapshotFromBazel(settingsPath,
artifactId)`. -/
def mavenDeploySnapshotFromBazel (settingsPath artifactId : String) : M JsVal :=
  withTempDir (fun tmpPath => do
    let _ ← spawnSync "unzip" [bundleZipPath artifactId, "-d", tmpPath]
    let baseJarPath := tmpPath ++ "/" ++ artifactId ++ "-1.0-SNAPSHOT"
    let w ← getWorld
    let jarArgs := jarArgsFor (existsSyncB w) baseJarPath
    let _ ← spawnSync "mvn" (deployTokens settingsPath tmpPath ++ jarArgs)
    M.pure JsVal.undef)

/-- The fixed artifact identifier list of `main`. -/
def artifactIds : List String :=
  ["closure-compiler",
   "closure-compiler-unshaded",
   "closure-compiler-externs",
   "closure-compiler-main",
   "closure-compiler-parent"]

/-- The `for (const id of artifactIds)` loop body of `main`, one artifact
fully processed before the next begins. -/
def deployLoop (settingsPath : String) : List String → M JsVal
  | [] => M.pure JsVal.undef
  | id :: rest => do
      let _ ← mavenDeploySnapshotFromBazel settingsPath id
      deployLoop settingsPath rest

namespace Script

/-- Embedding of `function main()`.  Argument evaluation order of the
`fs.writeFileSync(settingsPath, lines([...]), {flag: wx+})` call is kept:
the two `getEnvOrThrow` template holes are evaluated (left to right)
before the write occurs. -/
def main : M JsVal :=
  withTempDir (fun tmpPath => do
    let settingsPath := tmpPath ++ "/settings.xml"
    let username ← getEnvOrThrow "SONATYPE_USERNAME"
    let password ← getEnvOrThrow "SONATYPE_PASSWORD"
    let _ ← generateSettings settingsPath username password
    deployLoop settingsPath artifactIds)

end Script

/-! Derived descriptions of intermediate worlds and traces, used to state
and prove the run-characterization lemmas. -/

/-- The world right after `withTempDir` has created its directory. -/
def afterMkTemp (w : World) : World :=
  { w with tmpCounter := w.tmpCounter + 1, dirs := w.dirs ++ [tmpName w.tmpCounter] }

/-- The world inside one artifact scope right after the `unzip`
invocation. -/
def mavenExtractedWorld (artifactId : String) (w : World) : World :=
  unzipInto (bundleZipPath artifactId) (tmpName w.tmpCounter) (afterMkTemp w)

/-- The classifier arguments one `mavenDeploySnapshotFromBazel` call
resolves, as a function of the starting world. -/
def mavenJarArgs (artifactId : String) (w : World) : List String :=
  jarArgsFor (existsSyncB (mavenExtractedWorld artifactId w))
    (tmpName w.tmpCounter ++ "/" ++ artifactId ++ "-1.0-SNAPSHOT")

/-- The world after one `mavenDeploySnapshotFromBazel` call completes. -/
def mavenFinalWorld (artifactId : String) (w : World) : World :=
  rmRec (tmpName w.tmpCounter) (mavenExtractedWorld artifactId w)

/-- Accumulated world of the artifact loop. -/
def loopWorld : List String → World → World
  | [], w => w
  | id :: rest, w => loopWorld rest (mavenFinalWorld id w)

/-- The event block of one artifact scope, as a function of the starting
world. -/
def artifactBlock (s id : String) (w : World) : List Event :=
  [Event.tempDirCreated (tmpName w.tmpCounter),
   Event.spawned "unzip" [bundleZipPath id, "-d", tmpName w.tmpCounter],
   Event.spawned "mvn" (deployTokens s (tmpName w.tmpCounter) ++ mavenJarArgs id w),
   Event.tempDirRemoved (tmpName w.tmpCounter)]

/-- Accumulated trace of the artifact loop. -/
def loopTrace (s : String) : List String → World → List Event
  | [], _ => []
  | id :: rest, w => artifactBlock s id w ++ loopTrace s rest (mavenFinalWorld id w)

/-- The world of a successful run right after the settings document has
been written. -/
def afterWrite (w : World) (u pw : String) : World :=
  { afterMkTemp w with
    files := w.files ++
      [(tmpName w.tmpCounter ++ "/settings.xml", lines (settingsXmlLines u pw))] }

/-- The extract-resolve-deploy-cleanup event block of one artifact, with
the scratch path and resolved classifier arguments as parameters. -/
def deployBlock (settingsPath id p : String) (jarArgs : List String) : List Event :=
  [Event.tempDirCreated p,
   Event.spawned "unzip" [bundleZipPath id, "-d", p],
   Event.spawned "mvn" (deployTokens settingsPath p ++ jarArgs),
   Event.tempDirRemoved p]

/-- A world with nothing in it: no environment variables, no files. -/
def wEmpty : World := ⟨[], [], [], 0, [], []⟩

/-- A world with both credentials set and an empty filesystem. -/
def wGood : World :=
  ⟨[("SONATYPE_USERNAME", "u"), ("SONATYPE_PASSWORD", "p")], [], [], 0, [], []⟩

/-- A world in which SONATYPE_USERNAME is set to the empty string. -/
def wEnvEmptyUser : World :=
  ⟨[("SONATYPE_USERNAME", ""), ("SONATYPE_PASSWORD", "pw")], [], [], 0, [], []⟩

/-! Run-characterization lemmas. -/

/-- One `mavenDeploySnapshotFromBazel` call always succeeds and produces
exactly the four-event block: scratch directory created, `unzip` spawned,
`mvn` spawned, scratch directory removed. -/
theorem maven_run (s id : String) (w : World) :
    mavenDeploySnapshotFromBazel s id w =
      (Except.ok JsVal.undef, mavenFinalWorld id w,
       [Event.tempDirCreated (tmpName w.tmpCounter),
        Event.spawned "unzip" [bundleZipPath id, "-d", tmpName w.tmpCounter],
        Event.spawned "mvn" (deployTokens s (tmpName w.tmpCounter) ++ mavenJarArgs id w),
        Event.tempDirRemoved (tmpName w.tmpCounter)]) := rfl

/-- The artifact loop always succeeds, folding the per-artifact world
transformations and concatenating the per-artifact event blocks in list
order. -/
theorem deployLoop_run (s : String) (ids : List String) (w : World) :
    deployLoop s ids w = (Except.ok JsVal.undef, loopWorld ids w, loopTrace s ids w) := by
  induction ids generalizing w with
  | nil => rfl
  | cons id rest ih =>
      simp only [deployLoop, loopWorld, loopTrace, artifactBlock, Bind.bind, M.bind,
        maven_run, ih]

/-- Characterization of a run of `main` in which both credentials are
present and the settings path is fresh. -/
theorem main_run (w : World) (u pw : String)
    (h1 : w.env.lookup "SONATYPE_USERNAME" = some u)
    (h2 : w.env.lookup "SONATYPE_PASSWORD" = some pw)
    (h3 : w.files.lookup (tmpName w.tmpCounter ++ "/settings.xml") = none) :
    Script.main w =
      (Except.ok JsVal.undef,
       rmRec (tmpName w.tmpCounter) (loopWorld artifactIds (afterWrite w u pw)),
       [Event.tempDirCreated (tmpName w.tmpCounter),
        Event.fileWritten (tmpName w.tmpCounter ++ "/settings.xml")
          (lines (settingsXmlLines u pw))]
       ++ loopTrace (tmpName w.tmpCounter ++ "/settings.xml") artifactIds
            (afterWrite w u pw)
       ++ [Event.tempDirRemoved (tmpName w.tmpCounter)]) := by
  simp only [Script.main, withTempDir, Bind.bind, M.bind, mkTempDir, getEnvOrThrow,
    generateSettings, writeFileSyncWx, deployLoop_run, rmTempDir, M.pure, afterWrite,
    afterMkTemp, h1, h2, h3]
  simp

/-- Key of an association list extended on the right: when the key is not
bound yet, the appended binding is found. -/
theorem lookup_append_right {l : List (String × String)} {k : String}
    (h : l.lookup k = none) (v : String) :
    (l ++ [(k, v)]).lookup k = some v := by
  induction l with
  | nil => simp [List.lookup]
  | cons a as ih =>
      obtain ⟨ak, av⟩ := a
      rw [List.cons_append]
      cases hb : (k == ak) with
      | true => simp [List.lookup, hb] at h
      | false =>
          have h2 : as.lookup k = none := by simpa [List.lookup, hb] using h
          simp [List.lookup, hb, ih h2]

/-- The classifier-argument fold equals the ordered filter of the fixed
table by file existence, rendered as `arg=path` tokens. -/
theorem jarArgsFor_eq (existsF : String → Bool) (base : String) :
    jarArgsFor existsF base =
      (JAR_SUFFIX_BY_MVN_ARG.filter (fun e => existsF (base ++ e.2 ++ ".jar"))).map
        (fun e => e.1 ++ "=" ++ (base ++ e.2 ++ ".jar")) := by
  simp only [jarArgsFor, JAR_SUFFIX_BY_MVN_ARG, List.foldl, List.filter, List.map]
  cases h1 : existsF (base ++ "" ++ ".jar") <;>
    cases h2 : existsF (base ++ "-sources" ++ ".jar") <;>
      cases h3 : existsF (base ++ "-javadoc" ++ ".jar") <;>
        simp [h1, h2, h3]

theorem mavenFinalWorld_tmpCounter (id : String) (w : World) :
    (mavenFinalWorld id w).tmpCounter = w.tmpCounter + 1 := rfl

theorem afterWrite_tmpCounter (w : World) (u pw : String) :
    (afterWrite w u pw).tmpCounter = w.tmpCounter + 1 := rfl

/-! Claim theorems. -/

/-- Claim C1, counterexample: it is not the case that a run with a missing
credential creates no temporary directory — on the empty environment,
`main` has already created the temp directory by the time the credential
check throws. -/
theorem C1_counterexample :
    ¬ (∀ w : World,
        (w.env.lookup "SONATYPE_USERNAME" = none ∨
         w.env.lookup "SONATYPE_PASSWORD" = none) →
        ∀ p, Event.tempDirCreated p ∉ (Script.main w).2.2) := by
  intro h
  exact h wEmpty (Or.inl rfl) (tmpName 0) (by decide)

/-- Claim C1, amended: when a credential is missing, `main` fails with an
error naming the specific missing variable (SONATYPE_USERNAME is checked
first) and writes no file — but only after creating exactly one temporary
directory, which is not removed. -/
theorem C1_missing_credential_fails_after_one_tempdir (w : World)
    (h : w.env.lookup "SONATYPE_USERNAME" = none ∨
         w.env.lookup "SONATYPE_PASSWORD" = none) :
    ∃ name, name ∈ ["SONATYPE_USERNAME", "SONATYPE_PASSWORD"] ∧
      w.env.lookup name = none ∧
      Script.main w =
        (Except.error ("Environment variable not set: " ++ name),
         afterMkTemp w,
         [Event.tempDirCreated (tmpName w.tmpCounter)]) := by
  cases h1 : w.env.lookup "SONATYPE_USERNAME" with
  | none =>
      refine ⟨"SONATYPE_USERNAME", by simp, h1, ?_⟩
      simp [Script.main, withTempDir, Bind.bind, M.bind, mkTempDir, getEnvOrThrow,
        h1, afterMkTemp]
  | some u =>
      have h2 : w.env.lookup "SONATYPE_PASSWORD" = none := by
        rcases h with hu | hp
        · rw [h1] at hu; exact absurd hu (by simp)
        · exact hp
      refine ⟨"SONATYPE_PASSWORD", by simp, h2, ?_⟩
      simp [Script.main, withTempDir, Bind.bind, M.bind, mkTempDir, getEnvOrThrow,
        h1, h2, afterMkTemp]

/-- Witness for C1 at the empty environment. -/
theorem C1_witness :
    ∃ name, name ∈ ["SONATYPE_USERNAME", "SONATYPE_PASSWORD"] ∧
      wEmpty.env.lookup name = none ∧
      Script.main wEmpty =
        (Except.error ("Environment variable not set: " ++ name),
         afterMkTemp wEmpty,
         [Event.tempDirCreated (tmpName wEmpty.tmpCounter)]) :=
  C1_missing_credential_fails_after_one_tempdir wEmpty (Or.inl rfl)

/-- Claim C2, counterexample: the directory created by `withTempDir` is
not removed for every body — a throwing body leaves the removal event out
of the trace entirely. -/
theorem C2_counterexample :
    ¬ (∀ (body : String → M JsVal) (w : World),
        Event.tempDirRemoved (tmpName w.tmpCounter) ∈ (withTempDir body w).2.2) := by
  intro h
  exact absurd (h (fun _ => jsThrow "boom") wEmpty) (by decide)

/-- Claim C2, amended: `withTempDir` removes its directory (recursively)
after the body completes only when the body returns normally; when the
body throws, the failure propagates and the helper performs no removal. -/
theorem C2_cleanup_only_on_normal_return (body : String → M JsVal) (w : World) :
    (∀ v w1 t1, body (tmpName w.tmpCounter) (afterMkTemp w) = (Except.ok v, w1, t1) →
        withTempDir body w =
          (Except.ok JsVal.undef, rmRec (tmpName w.tmpCounter) w1,
           Event.tempDirCreated (tmpName w.tmpCounter) ::
             (t1 ++ [Event.tempDirRemoved (tmpName w.tmpCounter)])))
  ∧ (∀ e w1 t1, body (tmpName w.tmpCounter) (afterMkTemp w) = (Except.error e, w1, t1) →
        withTempDir body w =
          (Except.error e, w1,
           Event.tempDirCreated (tmpName w.tmpCounter) :: t1)) := by
  constructor
  · intro v w1 t1 hb
    simp only [afterMkTemp] at hb
    simp [withTempDir, Bind.bind, M.bind, mkTempDir, rmTempDir, M.pure, hb]
  · intro e w1 t1 hb
    simp only [afterMkTemp] at hb
    simp [withTempDir, Bind.bind, M.bind, mkTempDir, rmTempDir, M.pure, hb]

/-- Witness for C2 with a trivially succeeding body. -/
theorem C2_witness :
    withTempDir (fun _ => M.pure JsVal.undef) wEmpty =
      (Except.ok JsVal.undef, rmRec (tmpName wEmpty.tmpCounter) (afterMkTemp wEmpty),
       Event.tempDirCreated (tmpName wEmpty.tmpCounter) ::
         ([] ++ [Event.tempDirRemoved (tmpName wEmpty.tmpCounter)])) :=
  (C2_cleanup_only_on_normal_return (fun _ => M.pure JsVal.undef) wEmpty).1
    JsVal.undef (afterMkTemp wEmpty) [] rfl

/-- Claim C3: classifier resolution returns exactly the table entries
whose jar file exists, as ordered `arg=path` tokens, preserving the fixed
table order main, sources, javadoc; absence is not an error (the fold is
total). -/
theorem C3_classifier_resolution (existsF : String → Bool)
    (artifactId extractedDir : String) :
    jarArgsFor existsF (extractedDir ++ "/" ++ artifactId ++ "-1.0-SNAPSHOT") =
      (JAR_SUFFIX_BY_MVN_ARG.filter (fun e =>
          existsF (extractedDir ++ "/" ++ artifactId ++ "-1.0-SNAPSHOT" ++
            e.2 ++ ".jar"))).map
        (fun e => e.1 ++ "=" ++
          (extractedDir ++ "/" ++ artifactId ++ "-1.0-SNAPSHOT" ++ e.2 ++ ".jar")) ∧
    JAR_SUFFIX_BY_MVN_ARG.map Prod.fst = ["-Dfile", "-Dsources", "-Djavadoc"] := by
  constructor
  · have := jarArgsFor_eq existsF (extractedDir ++ "/" ++ artifactId ++ "-1.0-SNAPSHOT")
    simpa [String.append_assoc] using this
  · rfl

/-- Claim C4: settings-document generation at an occupied path fails with
the creation-conflict error and leaves the world unchanged; a second
generation against the same path fails. -/
theorem C4_generateSettings_conflict (targetPath u1 p1 u2 p2 : String) (w : World) :
    (∀ c, w.files.lookup targetPath = some c →
        generateSettings targetPath u1 p1 w =
          (Except.error ("EEXIST: file already exists, open " ++ targetPath), w, []))
  ∧ (w.files.lookup targetPath = none →
        ∃ w1, generateSettings targetPath u1 p1 w =
            (Except.ok (), w1,
             [Event.fileWritten targetPath (lines (settingsXmlLines u1 p1))]) ∧
          generateSettings targetPath u2 p2 w1 =
            (Except.error ("EEXIST: file already exists, open " ++ targetPath), w1, [])) := by
  constructor
  · intro c hc
    simp [generateSettings, writeFileSyncWx, hc]
  · intro hn
    refine ⟨{ w with files := w.files ++ [(targetPath, lines (settingsXmlLines u1 p1))] },
      ?_, ?_⟩
    · simp [generateSettings, writeFileSyncWx, hn]
    · simp [generateSettings, writeFileSyncWx, lookup_append_right hn]

/-- Witness for C4: generating twice at the same fresh path fails the
second time. -/
theorem C4_witness :
    ∃ w1, generateSettings "/t/settings.xml" "u1" "p1" wEmpty =
        (Except.ok (), w1,
         [Event.fileWritten "/t/settings.xml" (lines (settingsXmlLines "u1" "p1"))]) ∧
      generateSettings "/t/settings.xml" "u2" "p2" w1 =
        (Except.error ("EEXIST: file already exists, open " ++ "/t/settings.xml"),
         w1, []) :=
  (C4_generateSettings_conflict "/t/settings.xml" "u1" "p1" "u2" "p2" wEmpty).2 rfl

/-- Claim C5: the deploy command argument list is exactly, in order, the
file-deploy operation token, the settings flag, the fixed flags, the fixed
snapshot URL, the POM-file flag, then one `arg=path` token per classifier
file that exists. -/
theorem C5_deploy_command_exact (s id : String) (w : World) :
    ∃ wf,
      mavenDeploySnapshotFromBazel s id w =
        (Except.ok JsVal.undef, wf,
         [Event.tempDirCreated (tmpName w.tmpCounter),
          Event.spawned "unzip" [bundleZipPath id, "-d", tmpName w.tmpCounter],
          Event.spawned "mvn"
            (["deploy:deploy-file",
              "--settings=" ++ s,
              "-DgeneratePom=false",
              "-DrepositoryId=snapshot-repo-id",
              "-Durl=https://oss.sonatype.org/content/repositories/snapshots/",
              "-DpomFile=" ++ tmpName w.tmpCounter ++ "/pom.xml"]
             ++ (JAR_SUFFIX_BY_MVN_ARG.filter (fun e =>
                   existsSyncB (mavenExtractedWorld id w)
                     (tmpName w.tmpCounter ++ "/" ++ id ++ "-1.0-SNAPSHOT" ++
                       e.2 ++ ".jar"))).map
                  (fun e => e.1 ++ "=" ++
                    (tmpName w.tmpCounter ++ "/" ++ id ++ "-1.0-SNAPSHOT" ++
                      e.2 ++ ".jar"))),
          Event.tempDirRemoved (tmpName w.tmpCounter)]) := by
  refine ⟨mavenFinalWorld id w, ?_⟩
  rw [maven_run]
  simp [deployTokens, mavenJarArgs, jarArgsFor_eq, String.append_assoc]

/-- Claim C6: a non-failing run attempts exactly one deploy per artifact
identifier, in list order, each extract-resolve-deploy-cleanup block
contiguous and completed before the next begins. -/
theorem C6_sequential_artifact_deploys (w : World) (u pw : String)
    (h1 : w.env.lookup "SONATYPE_USERNAME" = some u)
    (h2 : w.env.lookup "SONATYPE_PASSWORD" = some pw)
    (h3 : w.files.lookup (tmpName w.tmpCounter ++ "/settings.xml") = none) :
    ∃ (ja1 ja2 ja3 ja4 ja5 : List String) (wf : World),
      Script.main w =
        (Except.ok JsVal.undef, wf,
         [Event.tempDirCreated (tmpName w.tmpCounter),
          Event.fileWritten (tmpName w.tmpCounter ++ "/settings.xml")
            (lines (settingsXmlLines u pw))]
         ++ deployBlock (tmpName w.tmpCounter ++ "/settings.xml") "closure-compiler"
              (tmpName (w.tmpCounter + 1)) ja1
         ++ deployBlock (tmpName w.tmpCounter ++ "/settings.xml") "closure-compiler-unshaded"
              (tmpName (w.tmpCounter + 2)) ja2
         ++ deployBlock (tmpName w.tmpCounter ++ "/settings.xml") "closure-compiler-externs"
              (tmpName (w.tmpCounter + 3)) ja3
         ++ deployBlock (tmpName w.tmpCounter ++ "/settings.xml") "closure-compiler-main"
              (tmpName (w.tmpCounter + 4)) ja4
         ++ deployBlock (tmpName w.tmpCounter ++ "/settings.xml") "closure-compiler-parent"
              (tmpName (w.tmpCounter + 5)) ja5
         ++ [Event.tempDirRemoved (tmpName w.tmpCounter)]) := by
  refine ⟨mavenJarArgs "closure-compiler" (afterWrite w u pw),
    mavenJarArgs "closure-compiler-unshaded"
      (mavenFinalWorld "closure-compiler" (afterWrite w u pw)),
    mavenJarArgs "closure-compiler-externs"
      (mavenFinalWorld "closure-compiler-unshaded"
        (mavenFinalWorld "closure-compiler" (afterWrite w u pw))),
    mavenJarArgs "closure-compiler-main"
      (mavenFinalWorld "closure-compiler-externs"
        (mavenFinalWorld "closure-compiler-unshaded"
          (mavenFinalWorld "closure-compiler" (afterWrite w u pw)))),
    mavenJarArgs "closure-compiler-parent"
      (mavenFinalWorld "closure-compiler-main"
        (mavenFinalWorld "closure-compiler-externs"
          (mavenFinalWorld "closure-compiler-unshaded"
            (mavenFinalWorld "closure-compiler" (afterWrite w u pw))))),
    rmRec (tmpName w.tmpCounter) (loopWorld artifactIds (afterWrite w u pw)), ?_⟩
  rw [main_run w u pw h1 h2 h3]
  simp only [artifactIds, loopTrace, artifactBlock, deployBlock,
    mavenFinalWorld_tmpCounter, afterWrite_tmpCounter]
  simp [add_assoc]

/-- Witness for C6 at a concrete world with both credentials set. -/
theorem C6_witness :
    ∃ (ja1 ja2 ja3 ja4 ja5 : List String) (wf : World),
      Script.main wGood =
        (Except.ok JsVal.undef, wf,
         [Event.tempDirCreated (tmpName wGood.tmpCounter),
          Event.fileWritten (tmpName wGood.tmpCounter ++ "/settings.xml")
            (lines (settingsXmlLines "u" "p"))]
         ++ deployBlock (tmpName wGood.tmpCounter ++ "/settings.xml") "closure-compiler"
              (tmpName (wGood.tmpCounter + 1)) ja1
         ++ deployBlock (tmpName wGood.tmpCounter ++ "/settings.xml") "closure-compiler-unshaded"
              (tmpName (wGood.tmpCounter + 2)) ja2
         ++ deployBlock (tmpName wGood.tmpCounter ++ "/settings.xml") "closure-compiler-externs"
              (tmpName (wGood.tmpCounter + 3)) ja3
         ++ deployBlock (tmpName wGood.tmpCounter ++ "/settings.xml") "closure-compiler-main"
              (tmpName (wGood.tmpCounter + 4)) ja4
         ++ deployBlock (tmpName wGood.tmpCounter ++ "/settings.xml") "closure-compiler-parent"
              (tmpName (wGood.tmpCounter + 5)) ja5
         ++ [Event.tempDirRemoved (tmpName wGood.tmpCounter)]) :=
  C6_sequential_artifact_deploys wGood "u" "p" rfl rfl rfl

/-- Claim C7: subprocess failures are swallowed — one artifact deploy
always succeeds with the full four-event block, its trace and resulting
filesystem do not depend on the exit-status oracle at all, and the
artifact loop always succeeds. -/
theorem C7_subprocess_failures_swallowed (s id : String) (ids : List String)
    (w : World) (ec : List ((String × List String) × Int)) :
    (mavenDeploySnapshotFromBazel s id w).1 = Except.ok JsVal.undef
  ∧ (mavenDeploySnapshotFromBazel s id w).2.2 =
      [Event.tempDirCreated (tmpName w.tmpCounter),
       Event.spawned "unzip" [bundleZipPath id, "-d", tmpName w.tmpCounter],
       Event.spawned "mvn"
         (deployTokens s (tmpName w.tmpCounter) ++ mavenJarArgs id w),
       Event.tempDirRemoved (tmpName w.tmpCounter)]
  ∧ (mavenDeploySnapshotFromBazel s id { w with exitCode := ec }).2.2 =
      (mavenDeploySnapshotFromBazel s id w).2.2
  ∧ (mavenDeploySnapshotFromBazel s id { w with exitCode := ec }).2.1 =
      { (mavenDeploySnapshotFromBazel s id w).2.1 with exitCode := ec }
  ∧ (deployLoop s ids w).1 = Except.ok JsVal.undef := by
  refine ⟨rfl, rfl, rfl, rfl, ?_⟩
  rw [deployLoop_run]

/-- Claim C8, counterexample: `withTempDir` does not return the value
produced by the body — a body producing 42 still yields `undefined`. -/
theorem C8_counterexample :
    ¬ (∀ (body : String → M JsVal) (w : World),
        (withTempDir body w).1 = (body (tmpName w.tmpCounter) (afterMkTemp w)).1) := by
  intro h
  have := h (fun _ => M.pure (JsVal.num 42)) wEmpty
  simp [withTempDir, Bind.bind, M.bind, mkTempDir, rmTempDir, M.pure] at this

/-- Claim C8, amended: `withTempDir` discards the value of a normally
returning body and evaluates to `undefined`, while a failure of the body
is propagated to the caller unchanged. -/
theorem C8_body_value_discarded_failure_propagated (body : String → M JsVal)
    (w : World) :
    (∀ v w1 t1, body (tmpName w.tmpCounter) (afterMkTemp w) = (Except.ok v, w1, t1) →
        (withTempDir body w).1 = Except.ok JsVal.undef)
  ∧ (∀ e w1 t1, body (tmpName w.tmpCounter) (afterMkTemp w) = (Except.error e, w1, t1) →
        (withTempDir body w).1 = Except.error e) := by
  constructor
  · intro v w1 t1 hb
    simp only [afterMkTemp] at hb
    simp [withTempDir, Bind.bind, M.bind, mkTempDir, rmTempDir, M.pure, hb]
  · intro e w1 t1 hb
    simp only [afterMkTemp] at hb
    simp [withTempDir, Bind.bind, M.bind, mkTempDir, rmTempDir, M.pure, hb]

/-- Witness for C8 with a throwing body: the failure propagates
unchanged. -/
theorem C8_witness :
    (withTempDir (fun _ => jsThrow "deploy failed") wEmpty).1 =
      Except.error "deploy failed" :=
  (C8_body_value_discarded_failure_propagated (fun _ => jsThrow "deploy failed")
    wEmpty).2 "deploy failed" (afterMkTemp wEmpty) [] rfl

/-- Claim C9: credential lookup throws exactly when the variable is unset
(the error names the variable); a defined value, even the empty string, is
returned as-is and embedded verbatim in the username line of the settings
document. -/
theorem C9_getEnvOrThrow_rejects_only_unset (name : String) (w : World) :
    (w.env.lookup name = none →
        getEnvOrThrow name w =
          (Except.error ("Environment variable not set: " ++ name), w, []))
  ∧ (∀ v, w.env.lookup name = some v → getEnvOrThrow name w = (Except.ok v, w, []))
  ∧ (∀ u p, (settingsXmlLines u p)[6]? =
        some ("      <username>" ++ u ++ "</username>")) := by
  refine ⟨fun h => ?_, fun v h => ?_, fun u p => rfl⟩
  · simp [getEnvOrThrow, h]
  · simp [getEnvOrThrow, h]

/-- Witness for C9: the empty-string credential is accepted. -/
theorem C9_witness :
    getEnvOrThrow "SONATYPE_USERNAME" wEnvEmptyUser =
      (Except.ok "", wEnvEmptyUser, []) :=
  (C9_getEnvOrThrow_rejects_only_unset "SONATYPE_USERNAME" wEnvEmptyUser).2.1 "" rfl

/-- Claim C10: every artifact deploy spawns `mvn` with the unconditional
`-DpomFile={tmpPath}/pom.xml` token (independent of any world, so no
existence check for pom.xml), and classifier resolution consults existence
only at the three classifier jar paths. -/
theorem C10_pomfile_unconditional (s id : String) (w : World) :
    Event.spawned "mvn" (deployTokens s (tmpName w.tmpCounter) ++ mavenJarArgs id w)
        ∈ (mavenDeploySnapshotFromBazel s id w).2.2
  ∧ (deployTokens s (tmpName w.tmpCounter))[5]? =
      some ("-DpomFile=" ++ tmpName w.tmpCounter ++ "/pom.xml")
  ∧ ∀ (f g : String → Bool) (base : String),
      (∀ e ∈ JAR_SUFFIX_BY_MVN_ARG, f (base ++ e.2 ++ ".jar") = g (base ++ e.2 ++ ".jar")) →
      jarArgsFor f base = jarArgsFor g base := by
  refine ⟨?_, rfl, fun f g base h => ?_⟩
  · rw [maven_run]
    simp
  · rw [jarArgsFor_eq, jarArgsFor_eq]
    have : JAR_SUFFIX_BY_MVN_ARG.filter (fun e => f (base ++ e.2 ++ ".jar")) =
        JAR_SUFFIX_BY_MVN_ARG.filter (fun e => g (base ++ e.2 ++ ".jar")) := by
      apply List.filter_congr
      intro e he
      simp [h e he]
    rw [this]

/-- Witness for C10 at a concrete world and trivially equal existence
predicates. -/
theorem C10_witness :
    Event.spawned "mvn"
        (deployTokens "/t/settings.xml" (tmpName 0) ++
          mavenJarArgs "closure-compiler" wEmpty)
      ∈ (mavenDeploySnapshotFromBazel "/t/settings.xml" "closure-compiler" wEmpty).2.2
  ∧ jarArgsFor (fun _ => false) "b" = jarArgsFor (fun _ => false) "b" :=
  ⟨(C10_pomfile_unconditional "/t/settings.xml" "closure-compiler" wEmpty).1,
   (C10_pomfile_unconditional "/t/settings.xml" "closure-compiler" wEmpty).2.2
     (fun _ => false) (fun _ => false) "b" (fun _ _ => rfl)⟩
